import Mathlib

/-!
Shallow embedding of `SimPEG/mesh/LogicallyOrthogonalMesh.py`.

The mesh stores the physical coordinates of the nodes of a logically
rectangular lattice (2D or 3D).  Numpy arrays are modelled at the logical
level: a component array of shape `(a, b)` is a function `ℕ → ℕ → ℝ`
(only indices below the shape matter), and Fortran-order flattening
(`mkvc`) is modelled by the explicit column-major enumeration
`colMajor2` / `colMajor3` below, so every derived quantity is a flat
`List` in exactly the order the source produces.
-/

namespace LOM

noncomputable section

/-- A point of the plane (a row of a 2-column numpy array). -/
structure Vec2 where
  x : ℝ
  y : ℝ

/-- A point of space (a row of a 3-column numpy array). -/
structure Vec3 where
  x : ℝ
  y : ℝ
  z : ℝ

namespace Vec2

def add (u v : Vec2) : Vec2 := ⟨u.x + v.x, u.y + v.y⟩

def sub (u v : Vec2) : Vec2 := ⟨u.x - v.x, u.y - v.y⟩

def smul (c : ℝ) (v : Vec2) : Vec2 := ⟨c * v.x, c * v.y⟩

end Vec2

namespace Vec3

def add (u v : Vec3) : Vec3 := ⟨u.x + v.x, u.y + v.y, u.z + v.z⟩

def sub (u v : Vec3) : Vec3 := ⟨u.x - v.x, u.y - v.y, u.z - v.z⟩

def smul (c : ℝ) (v : Vec3) : Vec3 := ⟨c * v.x, c * v.y, c * v.z⟩

/-- Cross product of two space vectors (`np.cross`). -/
def cross (u v : Vec3) : Vec3 :=
  ⟨u.y * v.z - u.z * v.y, u.z * v.x - u.x * v.z, u.x * v.y - u.y * v.x⟩

/-- Determinant of the 3×3 matrix with rows `u`, `v`, `w`. -/
def det (u v w : Vec3) : ℝ :=
  u.x * (v.y * w.z - v.z * w.y) - u.y * (v.x * w.z - v.z * w.x)
    + u.z * (v.x * w.y - v.y * w.x)

end Vec3

/-- `length2D` (source line 9): Euclidean length of each row of a 2-column
array; here, of a single row. -/
def length2D (v : Vec2) : ℝ := Real.sqrt (v.x ^ 2 + v.y ^ 2)

/-- `length3D` (source line 10): Euclidean length of a row of a 3-column
array. -/
def length3D (v : Vec3) : ℝ := Real.sqrt (v.x ^ 2 + v.y ^ 2 + v.z ^ 2)

/-- `normalize2D` (source line 11): divide each row by its length,
componentwise. -/
def normalize2D (v : Vec2) : Vec2 := ⟨v.x / length2D v, v.y / length2D v⟩

/-- `normalize3D` (source line 12): divide each row by its length,
componentwise. -/
def normalize3D (v : Vec3) : Vec3 :=
  ⟨v.x / length3D v, v.y / length3D v, v.z / length3D v⟩

/-- Modelled from the spec: `volTetra(points, p1, p2, p3, p4)` (the function
is imported from `SimPEG.utils`, whose source is not part of this
repository snapshot): volume of the tetrahedron with the four given
vertices, `|det([p2−p1, p3−p1, p4−p1])| / 6`. -/
def volTetra (p1 p2 p3 p4 : Vec3) : ℝ :=
  |Vec3.det (p2.sub p1) (p3.sub p1) (p4.sub p1)| / 6

/-- Modelled from the spec: the area part of
`faceInfo(points, c1, c2, c3, c4)` (imported from `SimPEG.utils`, not in
this snapshot): area of the (possibly non-planar) quadrilateral
`c1 c2 c3 c4` = half the magnitude of the cross product of its two
diagonals `(c3 − c1) × (c4 − c2)`. -/
def faceInfoArea (c1 c2 c3 c4 : Vec3) : ℝ :=
  length3D (Vec3.cross (c3.sub c1) (c4.sub c2)) / 2

/-- Modelled from the spec: the `average=False, normalizeNormals=False`
normal part of `faceInfo` (imported from `SimPEG.utils`, not in this
snapshot): four raw per-corner normals, one cross product per corner of
the quad — at each corner the cross product of the two edges incident to
it, taken in a consistent winding. -/
def faceInfoNormals (c1 c2 c3 c4 : Vec3) : Vec3 × Vec3 × Vec3 × Vec3 :=
  (Vec3.cross (c2.sub c1) (c4.sub c1),
   Vec3.cross (c3.sub c2) (c1.sub c2),
   Vec3.cross (c4.sub c3) (c2.sub c3),
   Vec3.cross (c1.sub c4) (c3.sub c4))

/-! ### Column-major (Fortran) flattening

`mkvc` flattens an array in column-major order; the entry at flat
position `p` of an `a × b` array `X` is `X (p % a) (p / a)`, and for an
`a × b × c` array it is `X (p % a) ((p / a) % b) (p / (a*b))`. -/

/-- Column-major enumeration of the logical indices of an `a × b` array. -/
def colMajor2 (a b : ℕ) : List (ℕ × ℕ) :=
  (List.range (a * b)).map (fun p => (p % a, p / a))

/-- Column-major enumeration of the logical indices of an `a × b × c`
array. -/
def colMajor3 (a b c : ℕ) : List (ℕ × ℕ × ℕ) :=
  (List.range (a * b * c)).map (fun p => (p % a, (p / a) % b, p / (a * b)))

theorem length_colMajor2 (a b : ℕ) : (colMajor2 a b).length = a * b := by
  simp [colMajor2]

theorem length_colMajor3 (a b c : ℕ) :
    (colMajor3 a b c).length = a * b * c := by
  simp [colMajor3]

theorem get_colMajor2 (a b : ℕ) (p : ℕ) (hp : p < (colMajor2 a b).length) :
    (colMajor2 a b).get ⟨p, hp⟩ = (p % a, p / a) := by
  simp [colMajor2]

theorem get_colMajor3 (a b c : ℕ) (p : ℕ)
    (hp : p < (colMajor3 a b c).length) :
    (colMajor3 a b c).get ⟨p, hp⟩ = (p % a, (p / a) % b, p / (a * b)) := by
  simp [colMajor3]

/-! ### The mesh

`LogicallyOrthogonalMesh.__init__` stores the node coordinates;
`BaseMesh` keeps the per-axis cell counts `n = shape − 1`.  We model the
node grid logically: `node i j`(`k`) is the physical point at logical
node `(i, j(, k))`. -/

/-- A 2D logically orthogonal mesh: per-axis cell counts and the node
coordinate array. -/
structure Mesh2 where
  nCx : ℕ
  nCy : ℕ
  node : ℕ → ℕ → Vec2

/-- A 3D logically orthogonal mesh: per-axis cell counts and the node
coordinate array. -/
structure Mesh3 where
  nCx : ℕ
  nCy : ℕ
  nCz : ℕ
  node : ℕ → ℕ → ℕ → Vec3

namespace Mesh2

/-- Number of nodes along x (`nNx = nCx + 1`). -/
def nNx (m : Mesh2) : ℕ := m.nCx + 1

/-- Number of nodes along y (`nNy = nCy + 1`). -/
def nNy (m : Mesh2) : ℕ := m.nCy + 1

/-- Total number of cells. -/
def nC (m : Mesh2) : ℕ := m.nCx * m.nCy

/-- `_gridN`: the flat node array, one 2-vector per node, nodes
enumerated in column-major order over the `nNx × nNy` logical lattice. -/
def flatN (m : Mesh2) : List Vec2 :=
  (colMajor2 m.nNx m.nNy).map (fun t => m.node t.1 t.2)

end Mesh2

namespace Mesh3

/-- Number of nodes along x. -/
def nNx (m : Mesh3) : ℕ := m.nCx + 1

/-- Number of nodes along y. -/
def nNy (m : Mesh3) : ℕ := m.nCy + 1

/-- Number of nodes along z. -/
def nNz (m : Mesh3) : ℕ := m.nCz + 1

/-- Total number of cells. -/
def nC (m : Mesh3) : ℕ := m.nCx * m.nCy * m.nCz

/-- `_gridN`: the flat node array, nodes enumerated column-major over the
`nNx × nNy × nNz` logical lattice. -/
def flatN (m : Mesh3) : List Vec3 :=
  (colMajor3 m.nNx m.nNy m.nNz).map (fun t => m.node t.1 t.2.1 t.2.2)

end Mesh3

/-! ### Corner convention (source lines 163–189)

2D: `A = (i,j)`, `B = (i,j+1)`, `C = (i+1,j+1)`, `D = (i+1,j)`.
3D: the same on the bottom (`k`), and `E, F, G, H` directly above
`A, B, C, D` at `k+1`.  `indexCube` (imported from `SimPEG.utils`, not in
this snapshot) is modelled from the spec as this offset table applied to
every base point of the requested lattice. -/

/-- Modelled from the spec: the 2D corner offsets of `indexCube`. -/
def cornerA2 (m : Mesh2) (i j : ℕ) : Vec2 := m.node i j

/-- Corner `B = (i, j+1)` of cell `(i,j)`. -/
def cornerB2 (m : Mesh2) (i j : ℕ) : Vec2 := m.node i (j + 1)

/-- Corner `C = (i+1, j+1)` of cell `(i,j)`. -/
def cornerC2 (m : Mesh2) (i j : ℕ) : Vec2 := m.node (i + 1) (j + 1)

/-- Corner `D = (i+1, j)` of cell `(i,j)`. -/
def cornerD2 (m : Mesh2) (i j : ℕ) : Vec2 := m.node (i + 1) j

/-- Modelled from the spec: the 3D corner offsets of `indexCube`,
bottom face. -/
def cornerA3 (m : Mesh3) (i j k : ℕ) : Vec3 := m.node i j k

/-- Corner `B = (i, j+1, k)`. -/
def cornerB3 (m : Mesh3) (i j k : ℕ) : Vec3 := m.node i (j + 1) k

/-- Corner `C = (i+1, j+1, k)`. -/
def cornerC3 (m : Mesh3) (i j k : ℕ) : Vec3 := m.node (i + 1) (j + 1) k

/-- Corner `D = (i+1, j, k)`. -/
def cornerD3 (m : Mesh3) (i j k : ℕ) : Vec3 := m.node (i + 1) j k

/-- Corner `E = (i, j, k+1)`. -/
def cornerE3 (m : Mesh3) (i j k : ℕ) : Vec3 := m.node i j (k + 1)

/-- Corner `F = (i, j+1, k+1)`. -/
def cornerF3 (m : Mesh3) (i j k : ℕ) : Vec3 := m.node i (j + 1) (k + 1)

/-- Corner `G = (i+1, j+1, k+1)`. -/
def cornerG3 (m : Mesh3) (i j k : ℕ) : Vec3 := m.node (i + 1) (j + 1) (k + 1)

/-- Corner `H = (i+1, j, k+1)`. -/
def cornerH3 (m : Mesh3) (i j k : ℕ) : Vec3 := m.node (i + 1) j (k + 1)

/-- Append a zero third coordinate to a plane point
(`np.c_[self.gridN, np.zeros((self.nN, 1))]`, source line 197). -/
def lift0 (v : Vec2) : Vec3 := ⟨v.x, v.y, 0⟩

/-- `vol` in 2D (source lines 195–198): for each cell, the `faceInfo`
area of its quadrilateral `A B C D` with a zero third coordinate appended
to every node; only the area is kept. -/
def vol2 (m : Mesh2) : List ℝ :=
  (colMajor2 m.nCx m.nCy).map (fun t =>
    faceInfoArea (lift0 (cornerA2 m t.1 t.2)) (lift0 (cornerB2 m t.1 t.2))
      (lift0 (cornerC2 m t.1 t.2)) (lift0 (cornerD2 m t.1 t.2)))

/-- `vol` in 3D (source lines 199–216): each hexahedral cell is
decomposed into 5 tetrahedra in two different ways and the two volume
estimates are averaged. -/
def vol3 (m : Mesh3) : List ℝ :=
  (colMajor3 m.nCx m.nCy m.nCz).map (fun t =>
    let A := cornerA3 m t.1 t.2.1 t.2.2
    let B := cornerB3 m t.1 t.2.1 t.2.2
    let C := cornerC3 m t.1 t.2.1 t.2.2
    let D := cornerD3 m t.1 t.2.1 t.2.2
    let E := cornerE3 m t.1 t.2.1 t.2.2
    let F := cornerF3 m t.1 t.2.1 t.2.2
    let G := cornerG3 m t.1 t.2.1 t.2.2
    let H := cornerH3 m t.1 t.2.1 t.2.2
    let vol1 := volTetra A B D E + volTetra B E F G + volTetra B D E G
      + volTetra B C D G + volTetra D E G H
    let vol2 := volTetra A F B C + volTetra A E F H + volTetra A H F C
      + volTetra C H D A + volTetra C G H F
    (vol1 + vol2) / 2)

/-! ### Staggered grids (source lines 43–158)

Each property reshapes the flat node vector back into its logical shape
(`self.r(self.gridN, 'N', 'N', 'M')`), applies an averaging stencil by
array slicing, and flattens the result column-major with `mkvc`. -/

/-- `gridCC` in 2D (source lines 43–53): `aveN2CCv * mkvc(gridN)`
reshaped to one row per cell.  Modelled from the spec: `aveN2CCv` (from
`BaseMesh`, not in this snapshot) is the sparse averaging operator whose
cell row averages the cell's `2^dim` corner nodes. -/
def gridCC2 (m : Mesh2) : List Vec2 :=
  (colMajor2 m.nCx m.nCy).map (fun t =>
    Vec2.smul (1 / 4)
      ((((m.node t.1 t.2).add (m.node (t.1 + 1) t.2)).add
        (m.node t.1 (t.2 + 1))).add (m.node (t.1 + 1) (t.2 + 1))))

/-- `gridCC` in 3D: the `aveN2CCv` average of the cell's 8 corner nodes
(modelled from the spec, as in `gridCC2`). -/
def gridCC3 (m : Mesh3) : List Vec3 :=
  (colMajor3 m.nCx m.nCy m.nCz).map (fun t =>
    Vec3.smul (1 / 8)
      ((((((((m.node t.1 t.2.1 t.2.2).add
        (m.node (t.1 + 1) t.2.1 t.2.2)).add
        (m.node t.1 (t.2.1 + 1) t.2.2)).add
        (m.node (t.1 + 1) (t.2.1 + 1) t.2.2)).add
        (m.node t.1 t.2.1 (t.2.2 + 1))).add
        (m.node (t.1 + 1) t.2.1 (t.2.2 + 1))).add
        (m.node t.1 (t.2.1 + 1) (t.2.2 + 1))).add
        (m.node (t.1 + 1) (t.2.1 + 1) (t.2.2 + 1))))

/-- `gridFx` in 2D (source line 73): `0.5 * (n[:, :-1] + n[:, 1:])` on
the `nNx × nCy` lattice. -/
def gridFx2 (m : Mesh2) : List Vec2 :=
  (colMajor2 m.nNx m.nCy).map (fun t =>
    Vec2.smul (1 / 2) ((m.node t.1 t.2).add (m.node t.1 (t.2 + 1))))

/-- `gridFy` in 2D (source line 90): `0.5 * (n[:-1, :] + n[1:, :])` on
the `nCx × nNy` lattice. -/
def gridFy2 (m : Mesh2) : List Vec2 :=
  (colMajor2 m.nCx m.nNy).map (fun t =>
    Vec2.smul (1 / 2) ((m.node t.1 t.2).add (m.node (t.1 + 1) t.2)))

/-- `gridEx` in 2D (source line 120): `0.5 * (n[:-1, :] + n[1:, :])` on
the `nCx × nNy` lattice. -/
def gridEx2 (m : Mesh2) : List Vec2 :=
  (colMajor2 m.nCx m.nNy).map (fun t =>
    Vec2.smul (1 / 2) ((m.node t.1 t.2).add (m.node (t.1 + 1) t.2)))

/-- `gridEy` in 2D (source line 137): `0.5 * (n[:, :-1] + n[:, 1:])` on
the `nNx × nCy` lattice. -/
def gridEy2 (m : Mesh2) : List Vec2 :=
  (colMajor2 m.nNx m.nCy).map (fun t =>
    Vec2.smul (1 / 2) ((m.node t.1 t.2).add (m.node t.1 (t.2 + 1))))

/-- `gridFx` in 3D (source line 76): quarter-sum over the `y`/`z`
displacements on the `nNx × nCy × nCz` lattice. -/
def gridFx3 (m : Mesh3) : List Vec3 :=
  (colMajor3 m.nNx m.nCy m.nCz).map (fun t =>
    Vec3.smul (1 / 4)
      ((((m.node t.1 t.2.1 t.2.2).add (m.node t.1 t.2.1 (t.2.2 + 1))).add
        (m.node t.1 (t.2.1 + 1) t.2.2)).add
        (m.node t.1 (t.2.1 + 1) (t.2.2 + 1))))

/-- `gridFy` in 3D (source line 93): quarter-sum over the `x`/`z`
displacements on the `nCx × nNy × nCz` lattice. -/
def gridFy3 (m : Mesh3) : List Vec3 :=
  (colMajor3 m.nCx m.nNy m.nCz).map (fun t =>
    Vec3.smul (1 / 4)
      ((((m.node t.1 t.2.1 t.2.2).add (m.node t.1 t.2.1 (t.2.2 + 1))).add
        (m.node (t.1 + 1) t.2.1 t.2.2)).add
        (m.node (t.1 + 1) t.2.1 (t.2.2 + 1))))

/-- `gridFz` in 3D (source line 106): quarter-sum over the `x`/`y`
displacements on the `nCx × nCy × nNz` lattice. -/
def gridFz3 (m : Mesh3) : List Vec3 :=
  (colMajor3 m.nCx m.nCy m.nNz).map (fun t =>
    Vec3.smul (1 / 4)
      ((((m.node t.1 t.2.1 t.2.2).add (m.node t.1 (t.2.1 + 1) t.2.2)).add
        (m.node (t.1 + 1) t.2.1 t.2.2)).add
        (m.node (t.1 + 1) (t.2.1 + 1) t.2.2)))

/-- `gridEx` in 3D (source line 123): `0.5 * (n[:-1,:,:] + n[1:,:,:])`
on the `nCx × nNy × nNz` lattice. -/
def gridEx3 (m : Mesh3) : List Vec3 :=
  (colMajor3 m.nCx m.nNy m.nNz).map (fun t =>
    Vec3.smul (1 / 2)
      ((m.node t.1 t.2.1 t.2.2).add (m.node (t.1 + 1) t.2.1 t.2.2)))

/-- `gridEy` in 3D (source line 140): `0.5 * (n[:,:-1,:] + n[:,1:,:])`
on the `nNx × nCy × nNz` lattice. -/
def gridEy3 (m : Mesh3) : List Vec3 :=
  (colMajor3 m.nNx m.nCy m.nNz).map (fun t =>
    Vec3.smul (1 / 2)
      ((m.node t.1 t.2.1 t.2.2).add (m.node t.1 (t.2.1 + 1) t.2.2)))

/-- `gridEz` in 3D (source line 153): `0.5 * (n[:,:,:-1] + n[:,:,1:])`
on the `nNx × nNy × nCz` lattice. -/
def gridEz3 (m : Mesh3) : List Vec3 :=
  (colMajor3 m.nNx m.nNy m.nCz).map (fun t =>
    Vec3.smul (1 / 2)
      ((m.node t.1 t.2.1 t.2.2).add (m.node t.1 t.2.1 (t.2.2 + 1))))

/-! ### Face areas and normals (source lines 222–284) -/

/-- The 2D x-face edge vectors (source lines 230–231):
`indexCube('AB', n+1, [nNx, nCy])`, `edge1 = xy[B] − xy[A]`. -/
def faceEdges1 (m : Mesh2) : List Vec2 :=
  (colMajor2 m.nNx m.nCy).map (fun t =>
    (m.node t.1 (t.2 + 1)).sub (m.node t.1 t.2))

/-- The 2D y-face edge vectors (source lines 234–237):
`indexCube('AD', n+1, [nCx, nNy])`, `edge2 = xy[A] − xy[D]` (note the
`A − D` orientation so the normal points towards `C`). -/
def faceEdges2 (m : Mesh2) : List Vec2 :=
  (colMajor2 m.nCx m.nNy).map (fun t =>
    (m.node t.1 t.2).sub (m.node (t.1 + 1) t.2))

/-- Rotate an edge vector by 90°: `np.c_[edge[:, 1], -edge[:, 0]]`
(source lines 232, 238). -/
def rot90 (v : Vec2) : Vec2 := ⟨v.y, -v.x⟩

/-- `_area` in 2D (source line 240): lengths of the x-face edge vectors,
then of the y-face edge vectors. -/
def area2 (m : Mesh2) : List ℝ :=
  (faceEdges1 m).map length2D ++ (faceEdges2 m).map length2D

/-- `_normals` in 2D (source line 241): the per-family rotated edge
vectors, normalized at caching time. -/
def normalsCache2 (m : Mesh2) : List Vec2 × List Vec2 :=
  ((faceEdges1 m).map (fun v => normalize2D (rot90 v)),
   (faceEdges2 m).map (fun v => normalize2D (rot90 v)))

/-- The `normals` property in 2D (source line 276):
`normalize2D(np.r_[self._normals[0], self._normals[1]])`. -/
def normals2 (m : Mesh2) : List Vec2 :=
  ((normalsCache2 m).1 ++ (normalsCache2 m).2).map normalize2D

/-- The corner quadruple `(A, E, F, B)` of the x-face at base `(i,j,k)`
(source line 244, lattice `nNx × nCy × nCz`). -/
def faceCornersX3 (m : Mesh3) (i j k : ℕ) : Vec3 × Vec3 × Vec3 × Vec3 :=
  (m.node i j k, m.node i j (k + 1), m.node i (j + 1) (k + 1),
   m.node i (j + 1) k)

/-- The corner quadruple `(A, D, H, E)` of the y-face at base `(i,j,k)`
(source line 247, lattice `nCx × nNy × nCz`). -/
def faceCornersY3 (m : Mesh3) (i j k : ℕ) : Vec3 × Vec3 × Vec3 × Vec3 :=
  (m.node i j k, m.node (i + 1) j k, m.node (i + 1) j (k + 1),
   m.node i j (k + 1))

/-- The corner quadruple `(A, B, C, D)` of the z-face at base `(i,j,k)`
(source line 250, lattice `nCx × nCy × nNz`). -/
def faceCornersZ3 (m : Mesh3) (i j k : ℕ) : Vec3 × Vec3 × Vec3 × Vec3 :=
  (m.node i j k, m.node i (j + 1) k, m.node (i + 1) (j + 1) k,
   m.node (i + 1) j k)

/-- `faceInfo` areas of the x-face family (source line 245). -/
def areaFx3 (m : Mesh3) : List ℝ :=
  (colMajor3 m.nNx m.nCy m.nCz).map (fun t =>
    let q := faceCornersX3 m t.1 t.2.1 t.2.2
    faceInfoArea q.1 q.2.1 q.2.2.1 q.2.2.2)

/-- `faceInfo` areas of the y-face family (source line 248). -/
def areaFy3 (m : Mesh3) : List ℝ :=
  (colMajor3 m.nCx m.nNy m.nCz).map (fun t =>
    let q := faceCornersY3 m t.1 t.2.1 t.2.2
    faceInfoArea q.1 q.2.1 q.2.2.1 q.2.2.2)

/-- `faceInfo` areas of the z-face family (source line 251). -/
def areaFz3 (m : Mesh3) : List ℝ :=
  (colMajor3 m.nCx m.nCy m.nNz).map (fun t =>
    let q := faceCornersZ3 m t.1 t.2.1 t.2.2
    faceInfoArea q.1 q.2.1 q.2.2.1 q.2.2.2)

/-- `_area` in 3D (source line 253): the three family area vectors
concatenated in x, y, z order. -/
def area3 (m : Mesh3) : List ℝ := areaFx3 m ++ areaFy3 m ++ areaFz3 m

/-- The four raw per-corner normals of every x-face
(source line 245, `average=False, normalizeNormals=False`). -/
def normalsFx3 (m : Mesh3) : List (Vec3 × Vec3 × Vec3 × Vec3) :=
  (colMajor3 m.nNx m.nCy m.nCz).map (fun t =>
    let q := faceCornersX3 m t.1 t.2.1 t.2.2
    faceInfoNormals q.1 q.2.1 q.2.2.1 q.2.2.2)

/-- The four raw per-corner normals of every y-face (source line 248). -/
def normalsFy3 (m : Mesh3) : List (Vec3 × Vec3 × Vec3 × Vec3) :=
  (colMajor3 m.nCx m.nNy m.nCz).map (fun t =>
    let q := faceCornersY3 m t.1 t.2.1 t.2.2
    faceInfoNormals q.1 q.2.1 q.2.2.1 q.2.2.2)

/-- The four raw per-corner normals of every z-face (source line 251). -/
def normalsFz3 (m : Mesh3) : List (Vec3 × Vec3 × Vec3 × Vec3) :=
  (colMajor3 m.nCx m.nCy m.nNz).map (fun t =>
    let q := faceCornersZ3 m t.1 t.2.1 t.2.2
    faceInfoNormals q.1 q.2.1 q.2.2.1 q.2.2.2)

/-- `_normals` in 3D (source line 254): the three families of raw
per-corner normals. -/
def normalsCache3 (m : Mesh3) :
    List (Vec3 × Vec3 × Vec3 × Vec3) × List (Vec3 × Vec3 × Vec3 × Vec3)
      × List (Vec3 × Vec3 × Vec3 × Vec3) :=
  (normalsFx3 m, normalsFy3 m, normalsFz3 m)

/-- Average the four per-corner normals of a face
(source lines 278–280): `(n[0] + n[1] + n[2] + n[3]) / 4`. -/
def avg4 (q : Vec3 × Vec3 × Vec3 × Vec3) : Vec3 :=
  Vec3.smul (1 / 4) (((q.1.add q.2.1).add q.2.2.1).add q.2.2.2)

/-- The `normals` property in 3D (source lines 277–281): average the four
per-corner normals of each face, concatenate the three families in
x, y, z order, and normalize row-wise. -/
def normals3 (m : Mesh3) : List Vec3 :=
  (((normalsFx3 m).map avg4 ++ (normalsFy3 m).map avg4
    ++ (normalsFz3 m).map avg4)).map normalize3D

/-! ### Edge lengths and tangents (source lines 286–323) -/

/-- The 2D x-edge vectors (source lines 293–294):
`indexCube('AD', n+1, [nCx, nNy])`, `edge1 = xy[D] − xy[A]`. -/
def edgeVecsX2 (m : Mesh2) : List Vec2 :=
  (colMajor2 m.nCx m.nNy).map (fun t =>
    (m.node (t.1 + 1) t.2).sub (m.node t.1 t.2))

/-- The 2D y-edge vectors (source lines 295–296):
`indexCube('AB', n+1, [nNx, nCy])`, `edge2 = xy[B] − xy[A]`. -/
def edgeVecsY2 (m : Mesh2) : List Vec2 :=
  (colMajor2 m.nNx m.nCy).map (fun t =>
    (m.node t.1 (t.2 + 1)).sub (m.node t.1 t.2))

/-- `_edge` in 2D (source line 297): the Euclidean lengths of the x-edge
vectors, then of the y-edge vectors. -/
def edge2 (m : Mesh2) : List ℝ :=
  (edgeVecsX2 m).map length2D ++ (edgeVecsY2 m).map length2D

/-- `_tangents` in 2D (source line 298): the concatenated edge vectors
divided row-wise by the edge lengths. -/
def tangents2 (m : Mesh2) : List Vec2 :=
  List.zipWith (fun v l => Vec2.mk (v.x / l) (v.y / l))
    (edgeVecsX2 m ++ edgeVecsY2 m) (edge2 m)

/-- The 3D x-edge vectors (source lines 301–302):
`indexCube('AD', n+1, [nCx, nNy, nNz])`, `edge1 = xyz[D] − xyz[A]`. -/
def edgeVecsX3 (m : Mesh3) : List Vec3 :=
  (colMajor3 m.nCx m.nNy m.nNz).map (fun t =>
    (m.node (t.1 + 1) t.2.1 t.2.2).sub (m.node t.1 t.2.1 t.2.2))

/-- The 3D y-edge vectors (source lines 303–304):
`indexCube('AB', n+1, [nNx, nCy, nNz])`, `edge2 = xyz[B] − xyz[A]`. -/
def edgeVecsY3 (m : Mesh3) : List Vec3 :=
  (colMajor3 m.nNx m.nCy m.nNz).map (fun t =>
    (m.node t.1 (t.2.1 + 1) t.2.2).sub (m.node t.1 t.2.1 t.2.2))

/-- The 3D z-edge vectors (source lines 305–306):
`indexCube('AE', n+1, [nNx, nNy, nCz])`, `edge3 = xyz[E] − xyz[A]`. -/
def edgeVecsZ3 (m : Mesh3) : List Vec3 :=
  (colMajor3 m.nNx m.nNy m.nCz).map (fun t =>
    (m.node t.1 t.2.1 (t.2.2 + 1)).sub (m.node t.1 t.2.1 t.2.2))

/-- `_edge` in 3D (source line 307): the concatenated per-family edge
lengths in x, y, z order. -/
def edge3 (m : Mesh3) : List ℝ :=
  (edgeVecsX3 m).map length3D ++ (edgeVecsY3 m).map length3D
    ++ (edgeVecsZ3 m).map length3D

/-- `_tangents` in 3D (source line 308): the concatenated edge vectors
divided row-wise by the edge lengths. -/
def tangents3 (m : Mesh3) : List Vec3 :=
  List.zipWith (fun v l => Vec3.mk (v.x / l) (v.y / l) (v.z / l))
    (edgeVecsX3 m ++ edgeVecsY3 m ++ edgeVecsZ3 m) (edge3 m)

/-! ### Construction validation (source lines 26–41)

`__init__(nodes)` asserts, in order: `nodes` is a `list`; each element is
a numpy array of the same shape as `nodes[0]`; the rank of the arrays
equals the number of arrays; the rank is at least 2.  Only the element
kinds and shapes decide success, so input elements are modelled by their
shape (or by being something other than an array). -/

/-- One element of the `nodes` argument: a numpy array, identified by its
shape, or any non-array Python value. -/
inductive PyElem where
  | arr (shape : List ℕ)
  | nonArray
deriving DecidableEq

/-- The `nodes` argument itself: a Python `list` or any other value. -/
inductive PyVal where
  | pyList (xs : List PyElem)
  | nonList
deriving DecidableEq

/-- The element-wise validation loop (source lines 29–31): each element
must be a numpy array whose shape equals `s0`, the shape of
`nodes[0]`. -/
def nodesCheck (s0 : List ℕ) : List PyElem → Except String Unit
  | [] => Except.ok ()
  | PyElem.nonArray :: _ => Except.error "nodes[i] is not a numpy array."
  | PyElem.arr s :: rest =>
    if s = s0 then nodesCheck s0 rest
    else Except.error "nodes[i] is not the same shape as nodes[0]"

/-- `__init__` (source lines 26–41): validate the input and build the
mesh; on success the per-axis cell-count vector `shape − 1` (what is
handed to `BaseMesh`) stands for the constructed mesh.  An empty list
passes the element loop but raises an `IndexError` at `nodes[0]`. -/
def buildMesh : PyVal → Except String (List ℕ)
  | PyVal.nonList => Except.error "'nodes' variable must be a list of np.ndarray"
  | PyVal.pyList [] => Except.error "IndexError: list index out of range"
  | PyVal.pyList (PyElem.nonArray :: _) =>
    Except.error "nodes[0] is not a numpy array."
  | PyVal.pyList (PyElem.arr s0 :: rest) =>
    match nodesCheck s0 rest with
    | Except.error e => Except.error e
    | Except.ok _ =>
      if s0.length = rest.length + 1 then
        if 1 < s0.length then Except.ok (s0.map (fun d => d - 1))
        else Except.error "Not worth using LOM for a 1D mesh."
      else Except.error "Dimension mismatch"

/-! ### The lazy cache (the `_gridCC`, …, `_tangents` backing fields)

Each property's `fget` reads its backing field, computes and stores it
when the field is `None`, and returns it.  The backing fields of one mesh
instance form a state; each property access is a state transition paired
with the returned value. -/

/-- The backing fields of a 2D mesh instance.  `gridFz` and `gridEz`
exist on the class but are never computed in 2D. -/
structure State2 where
  gridN : Option (List Vec2)
  gridCC : Option (List Vec2)
  gridFx : Option (List Vec2)
  gridFy : Option (List Vec2)
  gridFz : Option (List Vec3)
  gridEx : Option (List Vec2)
  gridEy : Option (List Vec2)
  gridEz : Option (List Vec3)
  vol : Option (List ℝ)
  area : Option (List ℝ)
  normals : Option (List Vec2 × List Vec2)
  edge : Option (List ℝ)
  tangents : Option (List Vec2)

/-- The state right after `__init__`: only `_gridN` is set
(source lines 38–41 and the class-level `= None` defaults). -/
def initState2 (m : Mesh2) : State2 :=
  ⟨some m.flatN, none, none, none, none, none, none, none, none, none,
   none, none, none⟩

/-- `gridN` fget (source lines 58–61): raise when the backing field was
cleared, otherwise return it unchanged. -/
def accessGridN2 (s : State2) : Except String (List Vec2) :=
  match s.gridN with
  | none => Except.error "Someone deleted this. I blame you."
  | some g => Except.ok g

/-- `gridCC` fget (source lines 46–50). -/
def accessGridCC2 (m : Mesh2) (s : State2) : List Vec2 × State2 :=
  match s.gridCC with
  | none => (gridCC2 m, { s with gridCC := some (gridCC2 m) })
  | some v => (v, s)

/-- `gridFx` fget (source lines 69–78), 2D branch. -/
def accessGridFx2 (m : Mesh2) (s : State2) : List Vec2 × State2 :=
  match s.gridFx with
  | none => (gridFx2 m, { s with gridFx := some (gridFx2 m) })
  | some v => (v, s)

/-- `gridFy` fget (source lines 86–95), 2D branch. -/
def accessGridFy2 (m : Mesh2) (s : State2) : List Vec2 × State2 :=
  match s.gridFy with
  | none => (gridFy2 m, { s with gridFy := some (gridFy2 m) })
  | some v => (v, s)

/-- `gridFz` fget (source lines 103–108) on a 2D mesh: the guard
`self._gridFz is None and self.dim == 3` is false, so the backing field
is returned as-is (it stays `None`). -/
def accessGridFz2 (s : State2) : Option (List Vec3) × State2 :=
  (s.gridFz, s)

/-- `gridEx` fget (source lines 116–125), 2D branch. -/
def accessGridEx2 (m : Mesh2) (s : State2) : List Vec2 × State2 :=
  match s.gridEx with
  | none => (gridEx2 m, { s with gridEx := some (gridEx2 m) })
  | some v => (v, s)

/-- `gridEy` fget (source lines 133–143), 2D branch. -/
def accessGridEy2 (m : Mesh2) (s : State2) : List Vec2 × State2 :=
  match s.gridEy with
  | none => (gridEy2 m, { s with gridEy := some (gridEy2 m) })
  | some v => (v, s)

/-- `gridEz` fget (source lines 150–155) on a 2D mesh: the guard is
false, so the backing field is returned as-is. -/
def accessGridEz2 (s : State2) : Option (List Vec3) × State2 :=
  (s.gridEz, s)

/-- `vol` fget (source lines 193–217), 2D branch. -/
def accessVol2 (m : Mesh2) (s : State2) : List ℝ × State2 :=
  match s.vol with
  | none => (vol2 m, { s with vol := some (vol2 m) })
  | some v => (v, s)

/-- `area` fget (source lines 225–255), 2D branch: when either `_area`
or `_normals` is unset, both are computed and cached together. -/
def accessArea2 (m : Mesh2) (s : State2) : List ℝ × State2 :=
  if s.area.isNone || s.normals.isNone then
    (area2 m,
     { s with area := some (area2 m), normals := some (normalsCache2 m) })
  else (s.area.getD [], s)

/-- `normals` fget (source lines 272–281), 2D branch: reading `area`
populates `_normals` if needed; the returned vectors are re-normalized
row-wise. -/
def accessNormals2 (m : Mesh2) (s : State2) : List Vec2 × State2 :=
  let s1 := if s.normals.isNone then (accessArea2 m s).2 else s
  let c := s1.normals.getD ([], [])
  ((c.1 ++ c.2).map normalize2D, s1)

/-- `edge` fget (source lines 289–309), 2D branch: when either `_edge`
or `_tangents` is unset, both are computed and cached together. -/
def accessEdge2 (m : Mesh2) (s : State2) : List ℝ × State2 :=
  if s.edge.isNone || s.tangents.isNone then
    (edge2 m,
     { s with edge := some (edge2 m), tangents := some (tangents2 m) })
  else (s.edge.getD [], s)

/-- `tangents` fget (source lines 317–320): reading `edge` populates
`_tangents` if needed. -/
def accessTangents2 (m : Mesh2) (s : State2) : List Vec2 × State2 :=
  let s1 := if s.tangents.isNone then (accessEdge2 m s).2 else s
  (s1.tangents.getD [], s1)

/-- The 13 read-only properties of the mesh. -/
inductive PropName where
  | gN | gCC | gFx | gFy | gFz | gEx | gEy | gEz
  | vol | area | normals | edge | tangents

/-- The state transition of a single property access on a 2D mesh. -/
def step2 (m : Mesh2) (a : PropName) (s : State2) : State2 :=
  match a with
  | PropName.gN => s
  | PropName.gCC => (accessGridCC2 m s).2
  | PropName.gFx => (accessGridFx2 m s).2
  | PropName.gFy => (accessGridFy2 m s).2
  | PropName.gFz => (accessGridFz2 s).2
  | PropName.gEx => (accessGridEx2 m s).2
  | PropName.gEy => (accessGridEy2 m s).2
  | PropName.gEz => (accessGridEz2 s).2
  | PropName.vol => (accessVol2 m s).2
  | PropName.area => (accessArea2 m s).2
  | PropName.normals => (accessNormals2 m s).2
  | PropName.edge => (accessEdge2 m s).2
  | PropName.tangents => (accessTangents2 m s).2

/-- The backing fields of a 3D mesh instance. -/
structure State3 where
  gridN : Option (List Vec3)
  gridCC : Option (List Vec3)
  gridFx : Option (List Vec3)
  gridFy : Option (List Vec3)
  gridFz : Option (List Vec3)
  gridEx : Option (List Vec3)
  gridEy : Option (List Vec3)
  gridEz : Option (List Vec3)
  vol : Option (List ℝ)
  area : Option (List ℝ)
  normals : Option (List (Vec3 × Vec3 × Vec3 × Vec3)
      × List (Vec3 × Vec3 × Vec3 × Vec3) × List (Vec3 × Vec3 × Vec3 × Vec3))
  edge : Option (List ℝ)
  tangents : Option (List Vec3)

/-- The state right after `__init__` of a 3D mesh. -/
def initState3 (m : Mesh3) : State3 :=
  ⟨some m.flatN, none, none, none, none, none, none, none, none, none,
   none, none, none⟩

/-- `gridN` fget (source lines 58–61) on a 3D mesh. -/
def accessGridN3 (s : State3) : Except String (List Vec3) :=
  match s.gridN with
  | none => Except.error "Someone deleted this. I blame you."
  | some g => Except.ok g

/-- `gridCC` fget on a 3D mesh. -/
def accessGridCC3 (m : Mesh3) (s : State3) : List Vec3 × State3 :=
  match s.gridCC with
  | none => (gridCC3 m, { s with gridCC := some (gridCC3 m) })
  | some v => (v, s)

/-- `gridFx` fget (source lines 69–78), 3D branch. -/
def accessGridFx3 (m : Mesh3) (s : State3) : List Vec3 × State3 :=
  match s.gridFx with
  | none => (gridFx3 m, { s with gridFx := some (gridFx3 m) })
  | some v => (v, s)

/-- `gridFy` fget, 3D branch. -/
def accessGridFy3 (m : Mesh3) (s : State3) : List Vec3 × State3 :=
  match s.gridFy with
  | none => (gridFy3 m, { s with gridFy := some (gridFy3 m) })
  | some v => (v, s)

/-- `gridFz` fget (source lines 103–108) on a 3D mesh: the guard is
live, so an unset backing field is computed. -/
def accessGridFz3 (m : Mesh3) (s : State3) : Option (List Vec3) × State3 :=
  match s.gridFz with
  | none => (some (gridFz3 m), { s with gridFz := some (gridFz3 m) })
  | some v => (some v, s)

/-- `gridEx` fget, 3D branch. -/
def accessGridEx3 (m : Mesh3) (s : State3) : List Vec3 × State3 :=
  match s.gridEx with
  | none => (gridEx3 m, { s with gridEx := some (gridEx3 m) })
  | some v => (v, s)

/-- `gridEy` fget, 3D branch. -/
def accessGridEy3 (m : Mesh3) (s : State3) : List Vec3 × State3 :=
  match s.gridEy with
  | none => (gridEy3 m, { s with gridEy := some (gridEy3 m) })
  | some v => (v, s)

/-- `gridEz` fget (source lines 150–155) on a 3D mesh. -/
def accessGridEz3 (m : Mesh3) (s : State3) : Option (List Vec3) × State3 :=
  match s.gridEz with
  | none => (some (gridEz3 m), { s with gridEz := some (gridEz3 m) })
  | some v => (some v, s)

/-- `vol` fget (source lines 193–217), 3D branch. -/
def accessVol3 (m : Mesh3) (s : State3) : List ℝ × State3 :=
  match s.vol with
  | none => (vol3 m, { s with vol := some (vol3 m) })
  | some v => (v, s)

/-- `area` fget (source lines 225–255), 3D branch: when either `_area`
or `_normals` is unset, both are computed and cached together. -/
def accessArea3 (m : Mesh3) (s : State3) : List ℝ × State3 :=
  if s.area.isNone || s.normals.isNone then
    (area3 m,
     { s with area := some (area3 m), normals := some (normalsCache3 m) })
  else (s.area.getD [], s)

/-- `normals` fget (source lines 272–281), 3D branch. -/
def accessNormals3 (m : Mesh3) (s : State3) : List Vec3 × State3 :=
  let s1 := if s.normals.isNone then (accessArea3 m s).2 else s
  let c := s1.normals.getD ([], [], [])
  ((c.1.map avg4 ++ c.2.1.map avg4 ++ c.2.2.map avg4).map normalize3D, s1)

/-- `edge` fget (source lines 289–309), 3D branch. -/
def accessEdge3 (m : Mesh3) (s : State3) : List ℝ × State3 :=
  if s.edge.isNone || s.tangents.isNone then
    (edge3 m,
     { s with edge := some (edge3 m), tangents := some (tangents3 m) })
  else (s.edge.getD [], s)

/-- `tangents` fget (source lines 317–320) on a 3D mesh. -/
def accessTangents3 (m : Mesh3) (s : State3) : List Vec3 × State3 :=
  let s1 := if s.tangents.isNone then (accessEdge3 m s).2 else s
  (s1.tangents.getD [], s1)

/-- The state transition of a single property access on a 3D mesh. -/
def step3 (m : Mesh3) (a : PropName) (s : State3) : State3 :=
  match a with
  | PropName.gN => s
  | PropName.gCC => (accessGridCC3 m s).2
  | PropName.gFx => (accessGridFx3 m s).2
  | PropName.gFy => (accessGridFy3 m s).2
  | PropName.gFz => (accessGridFz3 m s).2
  | PropName.gEx => (accessGridEx3 m s).2
  | PropName.gEy => (accessGridEy3 m s).2
  | PropName.gEz => (accessGridEz3 m s).2
  | PropName.vol => (accessVol3 m s).2
  | PropName.area => (accessArea3 m s).2
  | PropName.normals => (accessNormals3 m s).2
  | PropName.edge => (accessEdge3 m s).2
  | PropName.tangents => (accessTangents3 m s).2

/-- The pair-caching invariant of claim C8 on a 2D instance: the `_area`
and `_normals` backing fields are populated together, and so are
`_edge` and `_tangents`. -/
def paired2 (s : State2) : Prop :=
  (s.area.isSome ↔ s.normals.isSome)
    ∧ (s.edge.isSome ↔ s.tangents.isSome)

/-- The pair-caching invariant of claim C8 on a 3D instance. -/
def paired3 (s : State3) : Prop :=
  (s.area.isSome ↔ s.normals.isSome)
    ∧ (s.edge.isSome ↔ s.tangents.isSome)

/-! ### Demonstration meshes (used by the witnesses) -/

/-- The unit-spacing single-cell 2D mesh: `node (i,j) = (i, j)`. -/
def demoMesh2 : Mesh2 := ⟨1, 1, fun i j => ⟨(i : ℝ), (j : ℝ)⟩⟩

/-- The unit-spacing single-cell 3D mesh: `node (i,j,k) = (i, j, k)`. -/
def demoMesh3 : Mesh3 := ⟨1, 1, 1, fun i j k => ⟨(i : ℝ), (j : ℝ), (k : ℝ)⟩⟩

/-! ### Shared length lemmas -/

theorem length_vol3 (m : Mesh3) :
    (vol3 m).length = m.nCx * m.nCy * m.nCz := by
  simp [vol3, colMajor3]

theorem length_vol2 (m : Mesh2) : (vol2 m).length = m.nCx * m.nCy := by
  simp [vol2, colMajor2]

theorem length_gridCC2 (m : Mesh2) : (gridCC2 m).length = m.nCx * m.nCy := by
  simp [gridCC2, colMajor2]

theorem length_gridCC3 (m : Mesh3) :
    (gridCC3 m).length = m.nCx * m.nCy * m.nCz := by
  simp [gridCC3, colMajor3]

/-! ### C1 -/

/-- C1: for every 3D mesh, `vol` returns, for each cell, the average of
the two 5-tetrahedron decompositions of the hexahedron with corners
`A..H`:
`vol = (volTetra(A,B,D,E) + volTetra(B,E,F,G) + volTetra(B,D,E,G) +
volTetra(B,C,D,G) + volTetra(D,E,G,H) + volTetra(A,F,B,C) +
volTetra(A,E,F,H) + volTetra(A,H,F,C) + volTetra(C,H,D,A) +
volTetra(C,G,H,F)) / 2`, where `volTetra` is the unsigned tetrahedron
volume `|det([p2−p1, p3−p1, p4−p1])| / 6` and the cell at flat position
`p` has logical index `(i, j, k)` in column-major order. -/
theorem vol3_dual_tetra_decomposition (m : Mesh3) (p i j k : ℕ)
    (hp : p < (vol3 m).length)
    (hi : i = p % m.nCx) (hj : j = (p / m.nCx) % m.nCy)
    (hk : k = p / (m.nCx * m.nCy)) :
    (vol3 m).get ⟨p, hp⟩ =
      (volTetra (m.node i j k) (m.node i (j+1) k)
          (m.node (i+1) j k) (m.node i j (k+1))
        + volTetra (m.node i (j+1) k) (m.node i j (k+1))
          (m.node i (j+1) (k+1)) (m.node (i+1) (j+1) (k+1))
        + volTetra (m.node i (j+1) k) (m.node (i+1) j k)
          (m.node i j (k+1)) (m.node (i+1) (j+1) (k+1))
        + volTetra (m.node i (j+1) k) (m.node (i+1) (j+1) k)
          (m.node (i+1) j k) (m.node (i+1) (j+1) (k+1))
        + volTetra (m.node (i+1) j k) (m.node i j (k+1))
          (m.node (i+1) (j+1) (k+1)) (m.node (i+1) j (k+1))
        + volTetra (m.node i j k) (m.node i (j+1) (k+1))
          (m.node i (j+1) k) (m.node (i+1) (j+1) k)
        + volTetra (m.node i j k) (m.node i j (k+1))
          (m.node i (j+1) (k+1)) (m.node (i+1) j (k+1))
        + volTetra (m.node i j k) (m.node (i+1) j (k+1))
          (m.node i (j+1) (k+1)) (m.node (i+1) (j+1) k)
        + volTetra (m.node (i+1) (j+1) k) (m.node (i+1) j (k+1))
          (m.node (i+1) j k) (m.node i j k)
        + volTetra (m.node (i+1) (j+1) k) (m.node (i+1) (j+1) (k+1))
          (m.node (i+1) j (k+1)) (m.node i (j+1) (k+1))) / 2 := by
  subst hi hj hk
  simp [vol3, colMajor3, cornerA3, cornerB3, cornerC3, cornerD3,
    cornerE3, cornerF3, cornerG3, cornerH3]
  ring

/-- Witness for C1 at the unit cube mesh, cell 0. -/
theorem vol3_dual_tetra_decomposition_witness :
    ∃ hp : 0 < (vol3 demoMesh3).length,
      (vol3 demoMesh3).get ⟨0, hp⟩ =
        (volTetra (demoMesh3.node 0 0 0) (demoMesh3.node 0 1 0)
            (demoMesh3.node 1 0 0) (demoMesh3.node 0 0 1)
          + volTetra (demoMesh3.node 0 1 0) (demoMesh3.node 0 0 1)
            (demoMesh3.node 0 1 1) (demoMesh3.node 1 1 1)
          + volTetra (demoMesh3.node 0 1 0) (demoMesh3.node 1 0 0)
            (demoMesh3.node 0 0 1) (demoMesh3.node 1 1 1)
          + volTetra (demoMesh3.node 0 1 0) (demoMesh3.node 1 1 0)
            (demoMesh3.node 1 0 0) (demoMesh3.node 1 1 1)
          + volTetra (demoMesh3.node 1 0 0) (demoMesh3.node 0 0 1)
            (demoMesh3.node 1 1 1) (demoMesh3.node 1 0 1)
          + volTetra (demoMesh3.node 0 0 0) (demoMesh3.node 0 1 1)
            (demoMesh3.node 0 1 0) (demoMesh3.node 1 1 0)
          + volTetra (demoMesh3.node 0 0 0) (demoMesh3.node 0 0 1)
            (demoMesh3.node 0 1 1) (demoMesh3.node 1 0 1)
          + volTetra (demoMesh3.node 0 0 0) (demoMesh3.node 1 0 1)
            (demoMesh3.node 0 1 1) (demoMesh3.node 1 1 0)
          + volTetra (demoMesh3.node 1 1 0) (demoMesh3.node 1 0 1)
            (demoMesh3.node 1 0 0) (demoMesh3.node 0 0 0)
          + volTetra (demoMesh3.node 1 1 0) (demoMesh3.node 1 1 1)
            (demoMesh3.node 1 0 1) (demoMesh3.node 0 1 1)) / 2 := by
  have hp : 0 < (vol3 demoMesh3).length := by
    rw [length_vol3]; norm_num [demoMesh3]
  exact ⟨hp,
    vol3_dual_tetra_decomposition demoMesh3 0 0 0 0 hp (by norm_num [demoMesh3])
      (by norm_num [demoMesh3]) (by norm_num [demoMesh3])⟩

/-! ### C2 -/

/-- C2: for every valid 2D or 3D mesh, `gridCC` has exactly one row per
cell, and each row is the arithmetic average of the physical coordinates
of the cell's `2^dim` corner nodes. -/
theorem gridCC_corner_average :
    (∀ m : Mesh2, (gridCC2 m).length = m.nC
      ∧ ∀ p i j, ∀ hp : p < (gridCC2 m).length,
        i = p % m.nCx → j = p / m.nCx →
        (gridCC2 m).get ⟨p, hp⟩ =
          Vec2.smul (1 / 4)
            ((((m.node i j).add (m.node (i+1) j)).add
              (m.node i (j+1))).add (m.node (i+1) (j+1))))
    ∧ (∀ m : Mesh3, (gridCC3 m).length = m.nC
      ∧ ∀ p i j k, ∀ hp : p < (gridCC3 m).length,
        i = p % m.nCx → j = (p / m.nCx) % m.nCy → k = p / (m.nCx * m.nCy) →
        (gridCC3 m).get ⟨p, hp⟩ =
          Vec3.smul (1 / 8)
            ((((((((m.node i j k).add (m.node (i+1) j k)).add
              (m.node i (j+1) k)).add (m.node (i+1) (j+1) k)).add
              (m.node i j (k+1))).add (m.node (i+1) j (k+1))).add
              (m.node i (j+1) (k+1))).add (m.node (i+1) (j+1) (k+1)))) := by
  constructor
  · intro m
    refine ⟨length_gridCC2 m, ?_⟩
    intro p i j hp hi hj
    subst hi hj
    simp [gridCC2, colMajor2]
  · intro m
    refine ⟨length_gridCC3 m, ?_⟩
    intro p i j k hp hi hj hk
    subst hi hj hk
    simp [gridCC3, colMajor3]

/-- Witness for C2 at the unit single-cell meshes, cell 0. -/
theorem gridCC_corner_average_witness :
    (∃ hp : 0 < (gridCC2 demoMesh2).length,
      (gridCC2 demoMesh2).get ⟨0, hp⟩ =
        Vec2.smul (1 / 4)
          ((((demoMesh2.node 0 0).add (demoMesh2.node 1 0)).add
            (demoMesh2.node 0 1)).add (demoMesh2.node 1 1)))
    ∧ (∃ hp : 0 < (gridCC3 demoMesh3).length,
      (gridCC3 demoMesh3).get ⟨0, hp⟩ =
        Vec3.smul (1 / 8)
          ((((((((demoMesh3.node 0 0 0).add (demoMesh3.node 1 0 0)).add
            (demoMesh3.node 0 1 0)).add (demoMesh3.node 1 1 0)).add
            (demoMesh3.node 0 0 1)).add (demoMesh3.node 1 0 1)).add
            (demoMesh3.node 0 1 1)).add (demoMesh3.node 1 1 1))) := by
  have hp2 : 0 < (gridCC2 demoMesh2).length := by
    rw [length_gridCC2]; norm_num [demoMesh2]
  have hp3 : 0 < (gridCC3 demoMesh3).length := by
    rw [length_gridCC3]; norm_num [demoMesh3]
  exact ⟨⟨hp2, (gridCC_corner_average.1 demoMesh2).2 0 0 0 hp2
      (by norm_num [demoMesh2]) (by norm_num [demoMesh2])⟩,
    ⟨hp3, (gridCC_corner_average.2 demoMesh3).2 0 0 0 0 hp3
      (by norm_num [demoMesh3]) (by norm_num [demoMesh3])
      (by norm_num [demoMesh3])⟩⟩

/-! ### C3 -/

/-- C3: for every 2D mesh, `vol` returns, for each cell, the
quadrilateral area computed by `faceInfo` on the cell's four corners
`A, B, C, D` after appending a zero third coordinate to every node; only
the area (the `vol` list holds plain scalars) is retained. -/
theorem vol2_faceInfo_area (m : Mesh2) (p i j : ℕ)
    (hp : p < (vol2 m).length) (hi : i = p % m.nCx) (hj : j = p / m.nCx) :
    (vol2 m).get ⟨p, hp⟩ =
      faceInfoArea (lift0 (m.node i j)) (lift0 (m.node i (j+1)))
        (lift0 (m.node (i+1) (j+1))) (lift0 (m.node (i+1) j)) := by
  subst hi hj
  simp [vol2, colMajor2, cornerA2, cornerB2, cornerC2, cornerD2]

/-- Witness for C3 at the unit single-cell 2D mesh, cell 0. -/
theorem vol2_faceInfo_area_witness :
    ∃ hp : 0 < (vol2 demoMesh2).length,
      (vol2 demoMesh2).get ⟨0, hp⟩ =
        faceInfoArea (lift0 (demoMesh2.node 0 0)) (lift0 (demoMesh2.node 0 1))
          (lift0 (demoMesh2.node 1 1)) (lift0 (demoMesh2.node 1 0)) := by
  have hp : 0 < (vol2 demoMesh2).length := by
    rw [length_vol2]; norm_num [demoMesh2]
  exact ⟨hp, vol2_faceInfo_area demoMesh2 0 0 0 hp
    (by norm_num [demoMesh2]) (by norm_num [demoMesh2])⟩

/-! ### C7 -/

/-- C7: for every 2D mesh, the edge staggered grids coincide with the
transposed face staggered grids — `gridEx = gridFy` and
`gridEy = gridFx` — and both are the averages of the two nodes spanning
each edge/face, under the same stencil. -/
theorem grid_edge_face_duality_2d (m : Mesh2) :
    gridEx2 m = gridFy2 m ∧ gridEy2 m = gridFx2 m
      ∧ (∀ p i j, ∀ hp : p < (gridEx2 m).length,
          i = p % m.nCx → j = p / m.nCx →
          (gridEx2 m).get ⟨p, hp⟩ =
            Vec2.smul (1 / 2) ((m.node i j).add (m.node (i+1) j)))
      ∧ (∀ p i j, ∀ hp : p < (gridEy2 m).length,
          i = p % m.nNx → j = p / m.nNx →
          (gridEy2 m).get ⟨p, hp⟩ =
            Vec2.smul (1 / 2) ((m.node i j).add (m.node i (j+1)))) := by
  refine ⟨rfl, rfl, ?_, ?_⟩
  · intro p i j hp hi hj
    subst hi hj
    simp [gridEx2, colMajor2]
  · intro p i j hp hi hj
    subst hi hj
    simp [gridEy2, colMajor2]

/-- Witness for C7 at the unit single-cell 2D mesh. -/
theorem grid_edge_face_duality_2d_witness :
    gridEx2 demoMesh2 = gridFy2 demoMesh2
      ∧ gridEy2 demoMesh2 = gridFx2 demoMesh2
      ∧ ∃ hp : 0 < (gridEx2 demoMesh2).length,
          (gridEx2 demoMesh2).get ⟨0, hp⟩ =
            Vec2.smul (1 / 2)
              ((demoMesh2.node 0 0).add (demoMesh2.node 1 0)) := by
  have hp : 0 < (gridEx2 demoMesh2).length := by
    simp [gridEx2, colMajor2, demoMesh2, Mesh2.nNy]
  exact ⟨(grid_edge_face_duality_2d demoMesh2).1,
    (grid_edge_face_duality_2d demoMesh2).2.1,
    ⟨hp, (grid_edge_face_duality_2d demoMesh2).2.2.1 0 0 0 hp
      (by norm_num [demoMesh2]) (by norm_num [demoMesh2])⟩⟩

/-! ### Norm lemmas -/

theorem length2D_pos {v : Vec2} (h : v ≠ ⟨0, 0⟩) : 0 < length2D v := by
  rcases v with ⟨x, y⟩
  apply Real.sqrt_pos.mpr
  have hne : ¬(x = 0 ∧ y = 0) := fun hc => h (by simp [hc.1, hc.2])
  rcases not_and_or.mp hne with hx | hy
  · nlinarith [sq_nonneg y, sq_abs x, abs_pos.mpr hx]
  · nlinarith [sq_nonneg x, sq_abs y, abs_pos.mpr hy]

theorem length3D_pos {v : Vec3} (h : v ≠ ⟨0, 0, 0⟩) : 0 < length3D v := by
  rcases v with ⟨x, y, z⟩
  apply Real.sqrt_pos.mpr
  have : ¬(x = 0 ∧ y = 0 ∧ z = 0) := fun hc => h (by simp [hc.1, hc.2.1, hc.2.2])
  rcases not_and_or.mp this with hx | hyz
  · nlinarith [sq_nonneg y, sq_nonneg z, sq_abs x, abs_pos.mpr hx]
  · rcases not_and_or.mp hyz with hy | hz
    · nlinarith [sq_nonneg x, sq_nonneg z, sq_abs y, abs_pos.mpr hy]
    · nlinarith [sq_nonneg x, sq_nonneg y, sq_abs z, abs_pos.mpr hz]

/-- Dividing a nonzero plane vector componentwise by its length yields a
unit vector. -/
theorem length2D_div_self {v : Vec2} (h : v ≠ ⟨0, 0⟩) :
    length2D ⟨v.x / length2D v, v.y / length2D v⟩ = 1 := by
  have hl := length2D_pos h
  rcases v with ⟨x, y⟩
  have hs : 0 < x ^ 2 + y ^ 2 := Real.sqrt_pos.mp hl
  unfold length2D at hl ⊢
  rw [div_pow, div_pow, div_add_div_same,
    Real.sq_sqrt (by positivity), div_self (ne_of_gt hs)]
  exact Real.sqrt_one

/-- Dividing a nonzero space vector componentwise by its length yields a
unit vector. -/
theorem length3D_div_self {v : Vec3} (h : v ≠ ⟨0, 0, 0⟩) :
    length3D ⟨v.x / length3D v, v.y / length3D v, v.z / length3D v⟩ = 1 := by
  have hl := length3D_pos h
  rcases v with ⟨x, y, z⟩
  have hs : 0 < x ^ 2 + y ^ 2 + z ^ 2 := Real.sqrt_pos.mp hl
  unfold length3D at hl ⊢
  rw [div_pow, div_pow, div_pow, div_add_div_same, div_add_div_same,
    Real.sq_sqrt (by positivity), div_self (ne_of_gt hs)]
  exact Real.sqrt_one

theorem vec2_sub_ne_zero {a b : Vec2} (h : a ≠ b) : a.sub b ≠ Vec2.mk 0 0 := by
  intro hc
  apply h
  rcases a with ⟨a1, a2⟩
  rcases b with ⟨b1, b2⟩
  simp [Vec2.sub, Vec2.mk.injEq, sub_eq_zero] at hc
  simp [Vec2.mk.injEq, hc.1, hc.2]

theorem vec3_sub_ne_zero {a b : Vec3} (h : a ≠ b) : a.sub b ≠ Vec3.mk 0 0 0 := by
  intro hc
  apply h
  rcases a with ⟨a1, a2, a3⟩
  rcases b with ⟨b1, b2, b3⟩
  simp [Vec3.sub, Vec3.mk.injEq, sub_eq_zero] at hc
  simp [Vec3.mk.injEq, hc.1, hc.2.1, hc.2.2]

/-! ### Membership in the column-major enumerations -/

theorem mem_colMajor2 {a b : ℕ} {t : ℕ × ℕ} (h : t ∈ colMajor2 a b) :
    t.1 < a ∧ t.2 < b := by
  simp only [colMajor2, List.mem_map, List.mem_range] at h
  obtain ⟨p, hp, rfl⟩ := h
  have hab : 0 < a * b := Nat.lt_of_le_of_lt (Nat.zero_le p) hp
  have ha : 0 < a := Nat.pos_of_ne_zero (fun h0 => by simp [h0] at hab)
  exact ⟨Nat.mod_lt _ ha, Nat.div_lt_of_lt_mul hp⟩

theorem mem_colMajor3 {a b c : ℕ} {t : ℕ × ℕ × ℕ} (h : t ∈ colMajor3 a b c) :
    t.1 < a ∧ t.2.1 < b ∧ t.2.2 < c := by
  simp only [colMajor3, List.mem_map, List.mem_range] at h
  obtain ⟨p, hp, rfl⟩ := h
  have habc : 0 < a * b * c := Nat.lt_of_le_of_lt (Nat.zero_le p) hp
  have ha : 0 < a := Nat.pos_of_ne_zero (fun h0 => by simp [h0] at habc)
  have hb : 0 < b := Nat.pos_of_ne_zero (fun h0 => by simp [h0] at habc)
  exact ⟨Nat.mod_lt _ ha, Nat.mod_lt _ hb, Nat.div_lt_of_lt_mul hp⟩

/-! ### C5 -/

theorem edge2_eq_map (m : Mesh2) :
    edge2 m = (edgeVecsX2 m ++ edgeVecsY2 m).map length2D := by
  simp [edge2]

theorem tangents2_eq_map (m : Mesh2) :
    tangents2 m = (edgeVecsX2 m ++ edgeVecsY2 m).map
      (fun v => Vec2.mk (v.x / length2D v) (v.y / length2D v)) := by
  rw [tangents2, edge2_eq_map, List.zipWith_map_right]
  exact List.zipWith_same _ _

theorem edge3_eq_map (m : Mesh3) :
    edge3 m = (edgeVecsX3 m ++ edgeVecsY3 m ++ edgeVecsZ3 m).map length3D := by
  simp [edge3]

theorem tangents3_eq_map (m : Mesh3) :
    tangents3 m = (edgeVecsX3 m ++ edgeVecsY3 m ++ edgeVecsZ3 m).map
      (fun v =>
        Vec3.mk (v.x / length3D v) (v.y / length3D v) (v.z / length3D v)) := by
  rw [tangents3, edge3_eq_map, List.zipWith_map_right]
  exact List.zipWith_same _ _

/-- C5: for every mesh with non-degenerate edges (no two logically
adjacent nodes coincide), every row of `tangents` is the unit vector
`(node_far − node_near) / ‖node_far − node_near‖` of its edge, the
corresponding entry of `edge` is that Euclidean norm, every row of
`tangents` has norm 1, and the rows come concatenated in family order:
x-aligned edges, then y-aligned, then z-aligned (z only in 3D). -/
theorem edge_tangents_spec :
    (∀ m : Mesh2,
      (∀ i j, i < m.nCx → j < m.nNy → m.node (i+1) j ≠ m.node i j) →
      (∀ i j, i < m.nNx → j < m.nCy → m.node i (j+1) ≠ m.node i j) →
      (∀ v ∈ tangents2 m, length2D v = 1)
        ∧ tangents2 m = (edgeVecsX2 m ++ edgeVecsY2 m).map
            (fun v => Vec2.mk (v.x / length2D v) (v.y / length2D v))
        ∧ edge2 m = (edgeVecsX2 m ++ edgeVecsY2 m).map length2D
        ∧ (∀ p i j, ∀ hp : p < (edgeVecsX2 m).length,
            i = p % m.nCx → j = p / m.nCx →
            (edgeVecsX2 m).get ⟨p, hp⟩ = (m.node (i+1) j).sub (m.node i j))
        ∧ (∀ p i j, ∀ hp : p < (edgeVecsY2 m).length,
            i = p % m.nNx → j = p / m.nNx →
            (edgeVecsY2 m).get ⟨p, hp⟩ = (m.node i (j+1)).sub (m.node i j)))
    ∧ (∀ m : Mesh3,
      (∀ i j k, i < m.nCx → j < m.nNy → k < m.nNz →
        m.node (i+1) j k ≠ m.node i j k) →
      (∀ i j k, i < m.nNx → j < m.nCy → k < m.nNz →
        m.node i (j+1) k ≠ m.node i j k) →
      (∀ i j k, i < m.nNx → j < m.nNy → k < m.nCz →
        m.node i j (k+1) ≠ m.node i j k) →
      (∀ v ∈ tangents3 m, length3D v = 1)
        ∧ tangents3 m = (edgeVecsX3 m ++ edgeVecsY3 m ++ edgeVecsZ3 m).map
            (fun v => Vec3.mk (v.x / length3D v) (v.y / length3D v)
              (v.z / length3D v))
        ∧ edge3 m
            = (edgeVecsX3 m ++ edgeVecsY3 m ++ edgeVecsZ3 m).map length3D
        ∧ (∀ p i j k, ∀ hp : p < (edgeVecsX3 m).length,
            i = p % m.nCx → j = (p / m.nCx) % m.nNy →
            k = p / (m.nCx * m.nNy) →
            (edgeVecsX3 m).get ⟨p, hp⟩
              = (m.node (i+1) j k).sub (m.node i j k))
        ∧ (∀ p i j k, ∀ hp : p < (edgeVecsY3 m).length,
            i = p % m.nNx → j = (p / m.nNx) % m.nCy →
            k = p / (m.nNx * m.nCy) →
            (edgeVecsY3 m).get ⟨p, hp⟩
              = (m.node i (j+1) k).sub (m.node i j k))
        ∧ (∀ p i j k, ∀ hp : p < (edgeVecsZ3 m).length,
            i = p % m.nNx → j = (p / m.nNx) % m.nNy →
            k = p / (m.nNx * m.nNy) →
            (edgeVecsZ3 m).get ⟨p, hp⟩
              = (m.node i j (k+1)).sub (m.node i j k))) := by
  constructor
  · intro m hX hY
    refine ⟨?_, tangents2_eq_map m, edge2_eq_map m, ?_, ?_⟩
    · intro v hv
      rw [tangents2_eq_map] at hv
      simp only [List.mem_map, List.mem_append] at hv
      obtain ⟨u, hu, rfl⟩ := hv
      have hne : u ≠ ⟨0, 0⟩ := by
        rcases hu with hu | hu
        · simp only [edgeVecsX2, List.mem_map] at hu
          obtain ⟨t, ht, rfl⟩ := hu
          obtain ⟨h1, h2⟩ := mem_colMajor2 ht
          exact vec2_sub_ne_zero (hX t.1 t.2 h1 h2)
        · simp only [edgeVecsY2, List.mem_map] at hu
          obtain ⟨t, ht, rfl⟩ := hu
          obtain ⟨h1, h2⟩ := mem_colMajor2 ht
          exact vec2_sub_ne_zero (hY t.1 t.2 h1 h2)
      exact length2D_div_self hne
    · intro p i j hp hi hj
      subst hi hj
      simp [edgeVecsX2, colMajor2]
    · intro p i j hp hi hj
      subst hi hj
      simp [edgeVecsY2, colMajor2]
  · intro m hX hY hZ
    refine ⟨?_, tangents3_eq_map m, edge3_eq_map m, ?_, ?_, ?_⟩
    · intro v hv
      rw [tangents3_eq_map] at hv
      simp only [List.mem_map, List.mem_append] at hv
      obtain ⟨u, hu, rfl⟩ := hv
      have hne : u ≠ ⟨0, 0, 0⟩ := by
        rcases hu with (hu | hu) | hu
        · simp only [edgeVecsX3, List.mem_map] at hu
          obtain ⟨t, ht, rfl⟩ := hu
          obtain ⟨h1, h2, h3⟩ := mem_colMajor3 ht
          exact vec3_sub_ne_zero (hX t.1 t.2.1 t.2.2 h1 h2 h3)
        · simp only [edgeVecsY3, List.mem_map] at hu
          obtain ⟨t, ht, rfl⟩ := hu
          obtain ⟨h1, h2, h3⟩ := mem_colMajor3 ht
          exact vec3_sub_ne_zero (hY t.1 t.2.1 t.2.2 h1 h2 h3)
        · simp only [edgeVecsZ3, List.mem_map] at hu
          obtain ⟨t, ht, rfl⟩ := hu
          obtain ⟨h1, h2, h3⟩ := mem_colMajor3 ht
          exact vec3_sub_ne_zero (hZ t.1 t.2.1 t.2.2 h1 h2 h3)
      exact length3D_div_self hne
    · intro p i j k hp hi hj hk
      subst hi hj hk
      simp [edgeVecsX3, colMajor3]
    · intro p i j k hp hi hj hk
      subst hi hj hk
      simp [edgeVecsY3, colMajor3]
    · intro p i j k hp hi hj hk
      subst hi hj hk
      simp [edgeVecsZ3, colMajor3]

/-- Witness for C5 at the unit single-cell meshes, whose adjacent nodes
never coincide. -/
theorem edge_tangents_spec_witness :
    (∀ v ∈ tangents2 demoMesh2, length2D v = 1)
      ∧ (∀ v ∈ tangents3 demoMesh3, length3D v = 1)
      ∧ edge3 demoMesh3
          = (edgeVecsX3 demoMesh3 ++ edgeVecsY3 demoMesh3
              ++ edgeVecsZ3 demoMesh3).map length3D := by
  have h2X : ∀ i j, i < demoMesh2.nCx → j < demoMesh2.nNy →
      demoMesh2.node (i+1) j ≠ demoMesh2.node i j := by
    intro i j _ _ h
    have hx := congrArg Vec2.x h
    simp [demoMesh2] at hx
  have h2Y : ∀ i j, i < demoMesh2.nNx → j < demoMesh2.nCy →
      demoMesh2.node i (j+1) ≠ demoMesh2.node i j := by
    intro i j _ _ h
    have hy := congrArg Vec2.y h
    simp [demoMesh2] at hy
  have h3X : ∀ i j k, i < demoMesh3.nCx → j < demoMesh3.nNy →
      k < demoMesh3.nNz → demoMesh3.node (i+1) j k ≠ demoMesh3.node i j k := by
    intro i j k _ _ _ h
    have hx := congrArg Vec3.x h
    simp [demoMesh3] at hx
  have h3Y : ∀ i j k, i < demoMesh3.nNx → j < demoMesh3.nCy →
      k < demoMesh3.nNz → demoMesh3.node i (j+1) k ≠ demoMesh3.node i j k := by
    intro i j k _ _ _ h
    have hy := congrArg Vec3.y h
    simp [demoMesh3] at hy
  have h3Z : ∀ i j k, i < demoMesh3.nNx → j < demoMesh3.nNy →
      k < demoMesh3.nCz → demoMesh3.node i j (k+1) ≠ demoMesh3.node i j k := by
    intro i j k _ _ _ h
    have hz := congrArg Vec3.z h
    simp [demoMesh3] at hz
  exact ⟨(edge_tangents_spec.1 demoMesh2 h2X h2Y).1,
    (edge_tangents_spec.2 demoMesh3 h3X h3Y h3Z).1,
    (edge_tangents_spec.2 demoMesh3 h3X h3Y h3Z).2.2.1⟩

/-! ### C4: helpers on an axis-aligned tensor lattice -/

theorem sqrt_four_sq_div_two {t : ℝ} (ht : 0 ≤ t) :
    Real.sqrt ((2 * t) ^ 2) / 2 = t := by
  rw [Real.sqrt_sq (by linarith)]
  ring

theorem normalize3D_neg_ex {t : ℝ} (ht : 0 < t) :
    normalize3D ⟨-t, 0, 0⟩ = ⟨-1, 0, 0⟩ := by
  have hl : length3D ⟨-t, 0, 0⟩ = t := by
    unfold length3D
    rw [show (-t) ^ 2 + (0:ℝ) ^ 2 + (0:ℝ) ^ 2 = t ^ 2 by ring,
      Real.sqrt_sq ht.le]
  unfold normalize3D
  rw [hl]
  simp [Vec2.mk.injEq, neg_div, div_self (ne_of_gt ht)]

theorem normalize3D_neg_ey {t : ℝ} (ht : 0 < t) :
    normalize3D ⟨0, -t, 0⟩ = ⟨0, -1, 0⟩ := by
  have hl : length3D ⟨0, -t, 0⟩ = t := by
    unfold length3D
    rw [show (0:ℝ) ^ 2 + (-t) ^ 2 + (0:ℝ) ^ 2 = t ^ 2 by ring,
      Real.sqrt_sq ht.le]
  unfold normalize3D
  rw [hl]
  simp [neg_div, div_self (ne_of_gt ht)]

theorem normalize3D_neg_ez {t : ℝ} (ht : 0 < t) :
    normalize3D ⟨0, 0, -t⟩ = ⟨0, 0, -1⟩ := by
  have hl : length3D ⟨0, 0, -t⟩ = t := by
    unfold length3D
    rw [show (0:ℝ) ^ 2 + (0:ℝ) ^ 2 + (-t) ^ 2 = t ^ 2 by ring,
      Real.sqrt_sq ht.le]
  unfold normalize3D
  rw [hl]
  simp [neg_div, div_self (ne_of_gt ht)]

/-- On an x-face of a tensor lattice the `faceInfo` area is the product
of the two non-normal spacings. -/
theorem faceInfoArea_xface (x ya yb za zb : ℝ) (hy : ya ≤ yb) (hz : za ≤ zb) :
    faceInfoArea ⟨x, ya, za⟩ ⟨x, ya, zb⟩ ⟨x, yb, zb⟩ ⟨x, yb, za⟩
      = (yb - ya) * (zb - za) := by
  have h1 : faceInfoArea ⟨x, ya, za⟩ ⟨x, ya, zb⟩ ⟨x, yb, zb⟩ ⟨x, yb, za⟩
      = Real.sqrt ((2 * ((yb - ya) * (zb - za))) ^ 2) / 2 := by
    simp only [faceInfoArea, length3D, Vec3.cross, Vec3.sub]
    congr 2
    ring
  rw [h1]
  exact sqrt_four_sq_div_two (by nlinarith)

/-- On a y-face of a tensor lattice the `faceInfo` area is the product
of the two non-normal spacings. -/
theorem faceInfoArea_yface (xa xb y za zb : ℝ) (hx : xa ≤ xb) (hz : za ≤ zb) :
    faceInfoArea ⟨xa, y, za⟩ ⟨xb, y, za⟩ ⟨xb, y, zb⟩ ⟨xa, y, zb⟩
      = (xb - xa) * (zb - za) := by
  have h1 : faceInfoArea ⟨xa, y, za⟩ ⟨xb, y, za⟩ ⟨xb, y, zb⟩ ⟨xa, y, zb⟩
      = Real.sqrt ((2 * ((xb - xa) * (zb - za))) ^ 2) / 2 := by
    simp only [faceInfoArea, length3D, Vec3.cross, Vec3.sub]
    congr 2
    ring
  rw [h1]
  exact sqrt_four_sq_div_two (by nlinarith)

/-- On a z-face of a tensor lattice the `faceInfo` area is the product
of the two non-normal spacings. -/
theorem faceInfoArea_zface (xa xb ya yb z : ℝ) (hx : xa ≤ xb) (hy : ya ≤ yb) :
    faceInfoArea ⟨xa, ya, z⟩ ⟨xa, yb, z⟩ ⟨xb, yb, z⟩ ⟨xb, ya, z⟩
      = (xb - xa) * (yb - ya) := by
  have h1 : faceInfoArea ⟨xa, ya, z⟩ ⟨xa, yb, z⟩ ⟨xb, yb, z⟩ ⟨xb, ya, z⟩
      = Real.sqrt ((2 * ((xb - xa) * (yb - ya))) ^ 2) / 2 := by
    simp only [faceInfoArea, length3D, Vec3.cross, Vec3.sub]
    congr 2
    ring
  rw [h1]
  exact sqrt_four_sq_div_two (by nlinarith)

/-- The average of the four per-corner normals of a tensor-lattice
x-face. -/
theorem avg4_xface (x ya yb za zb : ℝ) :
    avg4 (faceInfoNormals ⟨x, ya, za⟩ ⟨x, ya, zb⟩ ⟨x, yb, zb⟩ ⟨x, yb, za⟩)
      = ⟨-((yb - ya) * (zb - za)), 0, 0⟩ := by
  simp only [avg4, faceInfoNormals, Vec3.cross, Vec3.sub, Vec3.add,
    Vec3.smul, Vec3.mk.injEq]
  refine ⟨by ring, by ring, by ring⟩

/-- The average of the four per-corner normals of a tensor-lattice
y-face. -/
theorem avg4_yface (xa xb y za zb : ℝ) :
    avg4 (faceInfoNormals ⟨xa, y, za⟩ ⟨xb, y, za⟩ ⟨xb, y, zb⟩ ⟨xa, y, zb⟩)
      = ⟨0, -((xb - xa) * (zb - za)), 0⟩ := by
  simp only [avg4, faceInfoNormals, Vec3.cross, Vec3.sub, Vec3.add,
    Vec3.smul, Vec3.mk.injEq]
  refine ⟨by ring, by ring, by ring⟩

/-- The average of the four per-corner normals of a tensor-lattice
z-face. -/
theorem avg4_zface (xa xb ya yb z : ℝ) :
    avg4 (faceInfoNormals ⟨xa, ya, z⟩ ⟨xa, yb, z⟩ ⟨xb, yb, z⟩ ⟨xb, ya, z⟩)
      = ⟨0, 0, -((xb - xa) * (yb - ya))⟩ := by
  simp only [avg4, faceInfoNormals, Vec3.cross, Vec3.sub, Vec3.add,
    Vec3.smul, Vec3.mk.injEq]
  refine ⟨by ring, by ring, by ring⟩

/-- C4: on an axis-aligned regular grid — node coordinates a tensor
lattice `node (i,j,k) = (X i, Y j, Z k)` with increasing per-axis
coordinates — every vector of `normals` is one of the canonical unit
basis vectors up to sign, and every entry of `area` is the product of
the two non-normal spacings of its cell (faces enumerated per family in
column-major order). -/
theorem tensor_mesh_normals_area (m : Mesh3) (X Y Z : ℕ → ℝ)
    (hnode : ∀ i j k, m.node i j k = ⟨X i, Y j, Z k⟩)
    (hX : ∀ i, X i < X (i+1)) (hY : ∀ i, Y i < Y (i+1))
    (hZ : ∀ i, Z i < Z (i+1)) :
    (∀ v ∈ normals3 m,
      (v = ⟨1, 0, 0⟩ ∨ v = ⟨-1, 0, 0⟩) ∨ (v = ⟨0, 1, 0⟩ ∨ v = ⟨0, -1, 0⟩)
        ∨ (v = ⟨0, 0, 1⟩ ∨ v = ⟨0, 0, -1⟩))
      ∧ area3 m = areaFx3 m ++ areaFy3 m ++ areaFz3 m
      ∧ (∀ p i j k, ∀ hp : p < (areaFx3 m).length,
          i = p % m.nNx → j = (p / m.nNx) % m.nCy →
          k = p / (m.nNx * m.nCy) →
          (areaFx3 m).get ⟨p, hp⟩ = (Y (j+1) - Y j) * (Z (k+1) - Z k))
      ∧ (∀ p i j k, ∀ hp : p < (areaFy3 m).length,
          i = p % m.nCx → j = (p / m.nCx) % m.nNy →
          k = p / (m.nCx * m.nNy) →
          (areaFy3 m).get ⟨p, hp⟩ = (X (i+1) - X i) * (Z (k+1) - Z k))
      ∧ (∀ p i j k, ∀ hp : p < (areaFz3 m).length,
          i = p % m.nCx → j = (p / m.nCx) % m.nCy →
          k = p / (m.nCx * m.nCy) →
          (areaFz3 m).get ⟨p, hp⟩ = (X (i+1) - X i) * (Y (j+1) - Y j)) := by
  refine ⟨?_, rfl, ?_, ?_, ?_⟩
  · intro v hv
    simp only [normals3, List.mem_map, List.mem_append] at hv
    obtain ⟨u, hu, rfl⟩ := hv
    rcases hu with (hu | hu) | hu
    · simp only [normalsFx3, List.mem_map] at hu
      obtain ⟨q, hq, rfl⟩ := hu
      obtain ⟨t, _, rfl⟩ := hq
      left; right
      rw [faceCornersX3, hnode, hnode, hnode, hnode, avg4_xface]
      exact normalize3D_neg_ex
        (by nlinarith [hY t.2.1, hZ t.2.2, sub_pos.mpr (hY t.2.1),
          sub_pos.mpr (hZ t.2.2)])
    · simp only [normalsFy3, List.mem_map] at hu
      obtain ⟨q, hq, rfl⟩ := hu
      obtain ⟨t, _, rfl⟩ := hq
      right; left; right
      rw [faceCornersY3, hnode, hnode, hnode, hnode, avg4_yface]
      exact normalize3D_neg_ey
        (by nlinarith [sub_pos.mpr (hX t.1), sub_pos.mpr (hZ t.2.2)])
    · simp only [normalsFz3, List.mem_map] at hu
      obtain ⟨q, hq, rfl⟩ := hu
      obtain ⟨t, _, rfl⟩ := hq
      right; right; right
      rw [faceCornersZ3, hnode, hnode, hnode, hnode, avg4_zface]
      exact normalize3D_neg_ez
        (by nlinarith [sub_pos.mpr (hX t.1), sub_pos.mpr (hY t.2.1)])
  · intro p i j k hp hi hj hk
    subst hi hj hk
    simp only [areaFx3, colMajor3, List.get_eq_getElem, List.getElem_map, List.getElem_range,
      faceCornersX3, hnode]
    exact faceInfoArea_xface _ _ _ _ _ (hY _).le (hZ _).le
  · intro p i j k hp hi hj hk
    subst hi hj hk
    simp only [areaFy3, colMajor3, List.get_eq_getElem, List.getElem_map, List.getElem_range,
      faceCornersY3, hnode]
    exact faceInfoArea_yface _ _ _ _ _ (hX _).le (hZ _).le
  · intro p i j k hp hi hj hk
    subst hi hj hk
    simp only [areaFz3, colMajor3, List.get_eq_getElem, List.getElem_map, List.getElem_range,
      faceCornersZ3, hnode]
    exact faceInfoArea_zface _ _ _ _ _ (hX _).le (hY _).le

/-- Witness for C4 at the unit-spacing tensor mesh. -/
theorem tensor_mesh_normals_area_witness :
    (∀ v ∈ normals3 demoMesh3,
      (v = ⟨1, 0, 0⟩ ∨ v = ⟨-1, 0, 0⟩) ∨ (v = ⟨0, 1, 0⟩ ∨ v = ⟨0, -1, 0⟩)
        ∨ (v = ⟨0, 0, 1⟩ ∨ v = ⟨0, 0, -1⟩))
      ∧ ∃ hp : 0 < (areaFx3 demoMesh3).length,
          (areaFx3 demoMesh3).get ⟨0, hp⟩
            = ((1 : ℝ) - 0) * ((1 : ℝ) - 0) := by
  have hnode : ∀ i j k, demoMesh3.node i j k
      = Vec3.mk ((fun n : ℕ => (n : ℝ)) i) ((fun n : ℕ => (n : ℝ)) j)
        ((fun n : ℕ => (n : ℝ)) k) := fun i j k => rfl
  have hmono : ∀ i : ℕ, ((i : ℝ)) < ((i + 1 : ℕ) : ℝ) := by
    intro i
    exact_mod_cast Nat.lt_succ_self i
  have hthm := tensor_mesh_normals_area demoMesh3 (fun n : ℕ => (n : ℝ))
    (fun n : ℕ => (n : ℝ)) (fun n : ℕ => (n : ℝ)) hnode hmono hmono hmono
  have hp : 0 < (areaFx3 demoMesh3).length := by
    simp [areaFx3, colMajor3, demoMesh3, Mesh3.nNx]
  refine ⟨hthm.1, hp, ?_⟩
  have h0 := hthm.2.2.1 0 0 0 0 hp (by norm_num [demoMesh3])
    (by norm_num [demoMesh3]) (by norm_num [demoMesh3])
  simpa using h0

/-! ### C6 -/

theorem nodesCheck_ok_iff (s0 : List ℕ) (xs : List PyElem) :
    nodesCheck s0 xs = Except.ok () ↔ ∀ e ∈ xs, e = PyElem.arr s0 := by
  induction xs with
  | nil => simp [nodesCheck]
  | cons e rest ih =>
    cases e with
    | nonArray => simp [nodesCheck]
    | arr s =>
      by_cases hs : s = s0
      · subst hs
        simp [nodesCheck, ih]
      · simp [nodesCheck, hs]

/-- C6: constructing a mesh fails with an error — returning no partial
mesh — whenever the input is not a list, an element is not a numeric
array, the element arrays do not all share one shape, the rank of the
arrays differs from the length of the list, or the rank is below 2; and
construction succeeds exactly when all five conditions hold. -/
theorem buildMesh_validation (v : PyVal) :
    (∃ n, buildMesh v = Except.ok n) ↔
      ∃ xs, v = PyVal.pyList xs ∧ ∃ s0, (∀ e ∈ xs, e = PyElem.arr s0)
        ∧ s0.length = xs.length ∧ 2 ≤ s0.length := by
  constructor
  · rintro ⟨n, hn⟩
    cases v with
    | nonList => simp [buildMesh] at hn
    | pyList xs =>
      cases xs with
      | nil => simp [buildMesh] at hn
      | cons e rest =>
        cases e with
        | nonArray => simp [buildMesh] at hn
        | arr s0 =>
          cases hck : nodesCheck s0 rest with
          | error msg => simp [buildMesh, hck] at hn
          | ok u =>
            simp only [buildMesh, hck] at hn
            by_cases h1 : s0.length = rest.length + 1
            · by_cases h2 : 1 < s0.length
              · refine ⟨PyElem.arr s0 :: rest, rfl, s0, ?_, by simpa using h1,
                  by omega⟩
                intro e he
                rcases List.mem_cons.mp he with rfl | he2
                · rfl
                · exact (nodesCheck_ok_iff s0 rest).mp (by cases u; exact hck)
                    e he2
              · rw [if_pos h1, if_neg h2] at hn
                simp at hn
            · rw [if_neg h1] at hn
              simp at hn
  · rintro ⟨xs, rfl, s0, hall, hlen, h2⟩
    cases xs with
    | nil =>
      rw [List.length_nil] at hlen
      omega
    | cons e rest =>
      have he : e = PyElem.arr s0 := hall e (by simp)
      subst he
      have hck : nodesCheck s0 rest = Except.ok () :=
        (nodesCheck_ok_iff s0 rest).mpr (fun e he2 => hall e (by simp [he2]))
      have hlen2 : s0.length = rest.length + 1 := by simpa using hlen
      refine ⟨s0.map (fun d => d - 1), ?_⟩
      simp only [buildMesh, hck]
      rw [if_pos hlen2, if_pos (show 1 < s0.length by omega)]

/-- Witness for C6: a valid 2×2 two-axis input builds, and three invalid
inputs are rejected. -/
theorem buildMesh_validation_witness :
    (∃ n, buildMesh (PyVal.pyList
        [PyElem.arr [2, 2], PyElem.arr [2, 2]]) = Except.ok n)
      ∧ ¬(∃ n, buildMesh PyVal.nonList = Except.ok n)
      ∧ ¬(∃ n, buildMesh (PyVal.pyList
        [PyElem.arr [2, 2], PyElem.nonArray]) = Except.ok n)
      ∧ ¬(∃ n, buildMesh (PyVal.pyList
        [PyElem.arr [2], PyElem.arr [2]]) = Except.ok n) := by
  refine ⟨(buildMesh_validation _).mpr
      ⟨[PyElem.arr [2, 2], PyElem.arr [2, 2]], rfl, [2, 2],
        by decide, by decide, by decide⟩, ?_, ?_, ?_⟩
  · intro h
    rcases (buildMesh_validation _).mp h with ⟨xs, hxs, _⟩
    simp at hxs
  · intro h
    rcases (buildMesh_validation _).mp h with ⟨xs, hxs, s0, hall, _, _⟩
    injection hxs with hxs2
    subst hxs2
    have := hall PyElem.nonArray (by simp)
    simp at this
  · intro h
    rcases (buildMesh_validation _).mp h with ⟨xs, hxs, s0, hall, hlen, h2⟩
    injection hxs with hxs2
    subst hxs2
    have := hall (PyElem.arr [2]) (by simp)
    have hs0 : s0 = [2] := by simpa using this.symm
    subst hs0
    simp at h2

/-! ### C8 -/

/-- C8: `_area`/`_normals` form a jointly cached pair, and so do
`_edge`/`_tangents`: the pairing invariant holds at construction and is
preserved by every single property access, and reading either member of
a pair while its cache is empty populates both members of that pair —
in 2D and in 3D alike. -/
theorem area_normals_edge_tangents_pair_cache :
    (∀ m : Mesh2, paired2 (initState2 m))
      ∧ (∀ (m : Mesh2) (a : PropName) (s : State2),
          paired2 s → paired2 (step2 m a s))
      ∧ (∀ (m : Mesh2) (s : State2), s.area.isNone →
          (accessArea2 m s).2.area.isSome
            ∧ (accessArea2 m s).2.normals.isSome)
      ∧ (∀ (m : Mesh2) (s : State2), s.normals.isNone →
          (accessNormals2 m s).2.area.isSome
            ∧ (accessNormals2 m s).2.normals.isSome)
      ∧ (∀ (m : Mesh2) (s : State2), s.edge.isNone →
          (accessEdge2 m s).2.edge.isSome
            ∧ (accessEdge2 m s).2.tangents.isSome)
      ∧ (∀ (m : Mesh2) (s : State2), s.tangents.isNone →
          (accessTangents2 m s).2.edge.isSome
            ∧ (accessTangents2 m s).2.tangents.isSome)
      ∧ (∀ m : Mesh3, paired3 (initState3 m))
      ∧ (∀ (m : Mesh3) (a : PropName) (s : State3),
          paired3 s → paired3 (step3 m a s))
      ∧ (∀ (m : Mesh3) (s : State3), s.area.isNone →
          (accessArea3 m s).2.area.isSome
            ∧ (accessArea3 m s).2.normals.isSome)
      ∧ (∀ (m : Mesh3) (s : State3), s.normals.isNone →
          (accessNormals3 m s).2.area.isSome
            ∧ (accessNormals3 m s).2.normals.isSome)
      ∧ (∀ (m : Mesh3) (s : State3), s.edge.isNone →
          (accessEdge3 m s).2.edge.isSome
            ∧ (accessEdge3 m s).2.tangents.isSome)
      ∧ (∀ (m : Mesh3) (s : State3), s.tangents.isNone →
          (accessTangents3 m s).2.edge.isSome
            ∧ (accessTangents3 m s).2.tangents.isSome) := by
  refine ⟨?_, ?_, ?_, ?_, ?_, ?_, ?_, ?_, ?_, ?_, ?_, ?_⟩
  · intro m
    simp [paired2, initState2]
  · intro m a s hs
    cases a with
    | gN => exact hs
    | gCC =>
      simp only [step2, accessGridCC2]
      rcases s.gridCC with _ | v
      · exact hs
      · exact hs
    | gFx =>
      simp only [step2, accessGridFx2]
      rcases s.gridFx with _ | v
      · exact hs
      · exact hs
    | gFy =>
      simp only [step2, accessGridFy2]
      rcases s.gridFy with _ | v
      · exact hs
      · exact hs
    | gFz => exact hs
    | gEx =>
      simp only [step2, accessGridEx2]
      rcases s.gridEx with _ | v
      · exact hs
      · exact hs
    | gEy =>
      simp only [step2, accessGridEy2]
      rcases s.gridEy with _ | v
      · exact hs
      · exact hs
    | gEz => exact hs
    | vol =>
      simp only [step2, accessVol2]
      rcases s.vol with _ | v
      · exact hs
      · exact hs
    | area =>
      simp only [step2, accessArea2]
      split
      · exact ⟨Iff.rfl, hs.2⟩
      · exact hs
    | normals =>
      simp only [step2, accessNormals2]
      split
      · simp only [accessArea2]
        split
        · exact ⟨Iff.rfl, hs.2⟩
        · exact hs
      · exact hs
    | edge =>
      simp only [step2, accessEdge2]
      split
      · exact ⟨hs.1, Iff.rfl⟩
      · exact hs
    | tangents =>
      simp only [step2, accessTangents2]
      split
      · simp only [accessEdge2]
        split
        · exact ⟨hs.1, Iff.rfl⟩
        · exact hs
      · exact hs
  · intro m s h
    simp [accessArea2, h]
  · intro m s h
    simp [accessNormals2, accessArea2, h]
  · intro m s h
    simp [accessEdge2, h]
  · intro m s h
    simp [accessTangents2, accessEdge2, h]
  · intro m
    simp [paired3, initState3]
  · intro m a s hs
    cases a with
    | gN => exact hs
    | gCC =>
      simp only [step3, accessGridCC3]
      rcases s.gridCC with _ | v
      · exact hs
      · exact hs
    | gFx =>
      simp only [step3, accessGridFx3]
      rcases s.gridFx with _ | v
      · exact hs
      · exact hs
    | gFy =>
      simp only [step3, accessGridFy3]
      rcases s.gridFy with _ | v
      · exact hs
      · exact hs
    | gFz =>
      simp only [step3, accessGridFz3]
      rcases s.gridFz with _ | v
      · exact hs
      · exact hs
    | gEx =>
      simp only [step3, accessGridEx3]
      rcases s.gridEx with _ | v
      · exact hs
      · exact hs
    | gEy =>
      simp only [step3, accessGridEy3]
      rcases s.gridEy with _ | v
      · exact hs
      · exact hs
    | gEz =>
      simp only [step3, accessGridEz3]
      rcases s.gridEz with _ | v
      · exact hs
      · exact hs
    | vol =>
      simp only [step3, accessVol3]
      rcases s.vol with _ | v
      · exact hs
      · exact hs
    | area =>
      simp only [step3, accessArea3]
      split
      · exact ⟨Iff.rfl, hs.2⟩
      · exact hs
    | normals =>
      simp only [step3, accessNormals3]
      split
      · simp only [accessArea3]
        split
        · exact ⟨Iff.rfl, hs.2⟩
        · exact hs
      · exact hs
    | edge =>
      simp only [step3, accessEdge3]
      split
      · exact ⟨hs.1, Iff.rfl⟩
      · exact hs
    | tangents =>
      simp only [step3, accessTangents3]
      split
      · simp only [accessEdge3]
        split
        · exact ⟨hs.1, Iff.rfl⟩
        · exact hs
      · exact hs
  · intro m s h
    simp [accessArea3, h]
  · intro m s h
    simp [accessNormals3, accessArea3, h]
  · intro m s h
    simp [accessEdge3, h]
  · intro m s h
    simp [accessTangents3, accessEdge3, h]

/-- Witness for C8: the invariant at a fresh 2D instance, its
preservation across one access, and pair population on the fresh 3D
instance. -/
theorem area_normals_edge_tangents_pair_cache_witness :
    paired2 (initState2 demoMesh2)
      ∧ paired2 (step2 demoMesh2 PropName.area (initState2 demoMesh2))
      ∧ ((accessArea3 demoMesh3 (initState3 demoMesh3)).2.area.isSome
          ∧ (accessArea3 demoMesh3 (initState3 demoMesh3)).2.normals.isSome)
      ∧ ((accessTangents2 demoMesh2 (initState2 demoMesh2)).2.edge.isSome
          ∧ (accessTangents2 demoMesh2
              (initState2 demoMesh2)).2.tangents.isSome) :=
  ⟨area_normals_edge_tangents_pair_cache.1 demoMesh2,
   area_normals_edge_tangents_pair_cache.2.1 demoMesh2 PropName.area _
     (area_normals_edge_tangents_pair_cache.1 demoMesh2),
   area_normals_edge_tangents_pair_cache.2.2.2.2.2.2.2.2.1 demoMesh3 _
     (by simp [initState3]),
   area_normals_edge_tangents_pair_cache.2.2.2.2.2.1 demoMesh2 _
     (by simp [initState2])⟩

/-! ### C9 -/

/-- C9: reading `gridN` when the internal node array has been cleared
raises a fatal exception rather than returning a default; when the node
array is present, `gridN` returns it unchanged — in 2D and in 3D. -/
theorem gridN_cleared_raises :
    (∀ s : State2, s.gridN = none →
        accessGridN2 s = Except.error "Someone deleted this. I blame you.")
      ∧ (∀ (s : State2) (g : List Vec2), s.gridN = some g →
        accessGridN2 s = Except.ok g)
      ∧ (∀ s : State3, s.gridN = none →
        accessGridN3 s = Except.error "Someone deleted this. I blame you.")
      ∧ (∀ (s : State3) (g : List Vec3), s.gridN = some g →
        accessGridN3 s = Except.ok g) := by
  refine ⟨?_, ?_, ?_, ?_⟩
  · intro s h
    simp [accessGridN2, h]
  · intro s g h
    simp [accessGridN2, h]
  · intro s h
    simp [accessGridN3, h]
  · intro s g h
    simp [accessGridN3, h]

/-- Witness for C9: the fresh instance returns its node list; the
cleared instance errors. -/
theorem gridN_cleared_raises_witness :
    accessGridN2 { initState2 demoMesh2 with gridN := none }
        = Except.error "Someone deleted this. I blame you."
      ∧ accessGridN2 (initState2 demoMesh2) = Except.ok demoMesh2.flatN :=
  ⟨gridN_cleared_raises.1 _ rfl, gridN_cleared_raises.2.1 _ _ rfl⟩

/-! ### C10 -/

/-- C10: on a 2D mesh, accessing `gridFz` or `gridEz` returns `None`
(the absent value) without raising and without computing or caching
anything — the state is unchanged. -/
theorem gridFz_gridEz_none_2d (s : State2)
    (hf : s.gridFz = none) (he : s.gridEz = none) :
    (accessGridFz2 s).1 = none ∧ (accessGridFz2 s).2 = s
      ∧ (accessGridEz2 s).1 = none ∧ (accessGridEz2 s).2 = s :=
  ⟨by simp [accessGridFz2, hf], rfl, by simp [accessGridEz2, he], rfl⟩

/-- Witness for C10 at a freshly constructed 2D instance. -/
theorem gridFz_gridEz_none_2d_witness :
    (accessGridFz2 (initState2 demoMesh2)).1 = none
      ∧ (accessGridFz2 (initState2 demoMesh2)).2 = initState2 demoMesh2
      ∧ (accessGridEz2 (initState2 demoMesh2)).1 = none
      ∧ (accessGridEz2 (initState2 demoMesh2)).2 = initState2 demoMesh2 :=
  gridFz_gridEz_none_2d _ rfl rfl

end

end LOM
